import Mathlib

/-!
Verification development for the task-graph orchestration engine of the
general-contractor demo.  The definitions below are a shallow embedding of
the Python sources:

* `backend/orchestration/task_manager.py` — `TaskStatus`, `Task`,
  `TaskManager` with its scheduling and marking operations;
* `backend/api/routes.py` — the `skip_task` and `retry_task` route bodies
  (their effect on the task manager);
* `backend/utils/loop_detection.py` — `ToolCallTracker.track_call`;
* `backend/agents/general_contractor.py` — `execute_task`,
  `execute_next_phase` and `execute_entire_project` (the run loop), with the
  worker invocation abstracted as an oracle `Task → WorkerOutcome` and the
  fire-and-forget logging / MCP side effects omitted as they never touch the
  task graph.

Python dicts keyed by `task_id` are embedded as insertion-ordered lists of
tasks with unique keys, and Python sets of ids as lists used up to
membership.  Mutation is embedded as explicit state passing.
-/

namespace GCDemo

/-- Task status enum, from `TaskStatus` in `task_manager.py`. -/
inductive TaskStatus where
  | pending
  | ready
  | inProgress
  | completed
  | blocked
  | failed
deriving DecidableEq, Repr

/-- Classified failure messages stored by the execution controller.  Each
constructor corresponds to exactly one f-string template in
`general_contractor.py`; `FailureMsg.render` reproduces the template text, so
two messages of different constructors are distinct reasons. -/
inductive FailureMsg where
  | agentNotFound (agent : String)
  | taskTimeout (task_id : String) (timeout_seconds : Nat) (agent : String)
  | execError (task_id : String) (detail : String)
deriving DecidableEq, Repr

/-- The literal text of the source f-strings for each failure message. -/
def FailureMsg.render : FailureMsg → String
  | FailureMsg.agentNotFound a => "Agent " ++ a ++ " not found"
  | FailureMsg.taskTimeout i s a =>
      "Task " ++ i ++ " timed out after " ++ toString s ++ " seconds. Agent " ++ a ++
      " likely stuck in a loop. Check if the agent is calling the same tool repeatedly."
  | FailureMsg.execError i d => "Error executing task " ++ i ++ ": " ++ d

/-- Payloads stored in `Task.result`: the `task_result` dict built on
completion, the `{"error": ...}` dict stored by `mark_failed`, and the
skipped-note dict stored by the `skip_task` route. -/
inductive TaskResult where
  | completedResult (task_id : String) (agent : String) (payload : String)
  | failureResult (msg : FailureMsg)
  | skippedResult (original_status : TaskStatus)
deriving DecidableEq, Repr

/-- A construction task, from the `Task` dataclass in `task_manager.py`. -/
structure Task where
  task_id : String
  agent : String
  description : String
  dependencies : List String
  phase : String
  status : TaskStatus
  result : Option TaskResult
  requirements : List (String × String)
  materials : List String
deriving DecidableEq, Repr

/-- A task as constructed at every creation site in the source: positional
arguments up to `phase`, with the dataclass defaults `status = PENDING` and
`result = None` (requirements and materials default to empty). -/
def mkTask (task_id agent descr : String) (deps : List String) (phase : String) : Task :=
  { task_id := task_id, agent := agent, description := descr, dependencies := deps,
    phase := phase, status := TaskStatus.pending, result := none,
    requirements := [], materials := [] }

/-- The `TaskManager` state: the `tasks` dict (insertion-ordered, keyed by
`task_id`) and the two derived id sets. -/
structure TaskManager where
  tasks : List Task
  completed_tasks : List String
  failed_tasks : List String
deriving DecidableEq, Repr

/-- A fresh `TaskManager()`. -/
def TaskManager.empty : TaskManager :=
  { tasks := [], completed_tasks := [], failed_tasks := [] }

/-- The fixed `PHASE_ORDER` class attribute. -/
def PHASE_ORDER : List String :=
  ["planning", "permitting", "foundation", "framing", "rough_in",
   "inspection", "finishing", "final_inspection"]

/-- Membership of an id in the `tasks` dict. -/
def containsId (m : TaskManager) (id : String) : Bool :=
  m.tasks.any (fun t => t.task_id == id)

/-- `add_task`: `self.tasks[task.task_id] = task` — replaces in place when the
key exists, appends otherwise. -/
def add_task (m : TaskManager) (t : Task) : TaskManager :=
  if containsId m t.task_id then
    { m with tasks := m.tasks.map (fun u => if u.task_id == t.task_id then t else u) }
  else
    { m with tasks := m.tasks ++ [t] }

/-- `get_task`: `self.tasks.get(task_id)`. -/
def get_task (m : TaskManager) (id : String) : Option Task :=
  m.tasks.find? (fun t => t.task_id == id)

/-- Python `set.add` on an id set embedded as a list. -/
def setAdd (s : List String) (x : String) : List String :=
  if s.contains x then s else s ++ [x]

/-- `_are_dependencies_met`: every dependency id is in `completed_tasks`. -/
def are_dependencies_met (m : TaskManager) (t : Task) : Bool :=
  t.dependencies.all (fun d => m.completed_tasks.contains d)

/-- The promotion test applied to each task inside the `get_ready_tasks`
loop: status is `PENDING` and all dependencies are met.  The loop body reads
only the completed set (unchanged during the loop) and each task's status at
entry, so evaluating the test against the pre-call state is exact. -/
def promotes (m : TaskManager) (t : Task) : Bool :=
  t.status == TaskStatus.pending && are_dependencies_met m t

/-- Status write performed on a promoted task. -/
def setReady (t : Task) : Task :=
  { t with status := TaskStatus.ready }

/-- `get_ready_tasks`: promotes every pending task with met dependencies to
`READY`, returning the newly promoted tasks (in dict order) together with the
updated manager. -/
def get_ready_tasks (m : TaskManager) : List Task × TaskManager :=
  ((m.tasks.filter (fun t => promotes m t)).map setReady,
   { m with tasks := m.tasks.map (fun t => if promotes m t then setReady t else t) })

/-- The `for phase in self.PHASE_ORDER` walk in `get_next_phase_tasks`:
returns the ready-task group of the first phase whose group is non-empty, or
`none` when no recognized phase has ready tasks. -/
def firstPhaseGroup (ready : List Task) : List String → Option (List Task)
  | [] => none
  | p :: ps =>
      let grp := ready.filter (fun t => t.phase == p)
      if grp.isEmpty then firstPhaseGroup ready ps else some grp

/-- `get_next_phase_tasks`: calls `get_ready_tasks`, returns `[]` when it
yields nothing, otherwise the group of the first phase in `PHASE_ORDER` with
newly ready tasks, falling back to the whole newly-ready list when no task
carries a recognized phase tag. -/
def get_next_phase_tasks (m : TaskManager) : List Task × TaskManager :=
  let pr := get_ready_tasks m
  if pr.1.isEmpty then ([], pr.2)
  else
    match firstPhaseGroup pr.1 PHASE_ORDER with
    | some grp => (grp, pr.2)
    | none => (pr.1, pr.2)

/-- Update the task stored under `id` (all dict entries with that key). -/
def updateTask (ts : List Task) (id : String) (f : Task → Task) : List Task :=
  ts.map (fun t => if t.task_id == id then f t else t)

/-- `mark_in_progress`: sets the status when the id exists, else returns
`False` leaving the state untouched. -/
def mark_in_progress (m : TaskManager) (id : String) : TaskManager × Bool :=
  if containsId m id then
    ({ m with tasks := (updateTask m.tasks id
        (fun t => { t with status := TaskStatus.inProgress })) }, true)
  else (m, false)

/-- `mark_completed`: sets status `COMPLETED`, stores the (possibly `None`)
result and adds the id to `completed_tasks`; `False` when the id is absent. -/
def mark_completed (m : TaskManager) (id : String) (result : Option TaskResult) :
    TaskManager × Bool :=
  if containsId m id then
    ({ m with
        tasks := (updateTask m.tasks id
          (fun t => { t with status := TaskStatus.completed, result := result })),
        completed_tasks := setAdd m.completed_tasks id }, true)
  else (m, false)

/-- `mark_failed`: sets status `FAILED`, stores `{"error": error}` and adds
the id to `failed_tasks`; `False` when the id is absent. -/
def mark_failed (m : TaskManager) (id : String) (error : FailureMsg) :
    TaskManager × Bool :=
  if containsId m id then
    ({ m with
        tasks := (updateTask m.tasks id
          (fun t => { t with status := TaskStatus.failed,
                             result := some (TaskResult.failureResult error) })),
        failed_tasks := setAdd m.failed_tasks id }, true)
  else (m, false)

/-- The `get_project_status` counters (the floating-point
`completion_percentage` field is not modelled). -/
structure ProjectStatus where
  total_tasks : Nat
  completed : Nat
  failed : Nat
  in_progress : Nat
  pending : Nat
deriving DecidableEq, Repr

/-- `get_project_status`: `completed` and `failed` count the cached id sets,
`in_progress` and `pending` scan task statuses. -/
def get_project_status (m : TaskManager) : ProjectStatus :=
  { total_tasks := m.tasks.length,
    completed := m.completed_tasks.length,
    failed := m.failed_tasks.length,
    in_progress := (m.tasks.filter (fun t => t.status == TaskStatus.inProgress)).length,
    pending := (m.tasks.filter (fun t => t.status == TaskStatus.pending)).length }

/-- `clear`: empties the dict and both id sets. -/
def clear (_ : TaskManager) : TaskManager := TaskManager.empty

/-- The `skip_task` route body: 404 (no state change) when the task is
missing, otherwise `mark_completed` with the skipped-note dict recording the
original status. -/
def skip_task (m : TaskManager) (id : String) : TaskManager × Bool :=
  match get_task m id with
  | none => (m, false)
  | some t => ((mark_completed m id (some (TaskResult.skippedResult t.status))).1, true)

/-- Outcome of the `retry_task` route. -/
inductive RetryOutcome where
  | notFound
  | invalidState (status : TaskStatus)
  | attributeError
deriving DecidableEq, Repr

/-- The `retry_task` route body: 404 when the task is missing, 400 when its
status is not `failed`; otherwise the source calls
`contractor.task_manager.mark_ready(task_id)`, but `TaskManager` defines no
`mark_ready` method, so the call raises `AttributeError` before any state
mutation and the route's generic handler turns it into an HTTP 500.  The
manager is returned unchanged in every branch. -/
def retry_task (m : TaskManager) (id : String) : TaskManager × RetryOutcome :=
  match get_task m id with
  | none => (m, RetryOutcome.notFound)
  | some t =>
      if t.status == TaskStatus.failed then (m, RetryOutcome.attributeError)
      else (m, RetryOutcome.invalidState t.status)

/-- Ingestion of a plan: `create_project_tasks` (and the dynamic path) add
every produced task with `add_task`, one after the other, with no validation
of any kind in between. -/
def ingestPlan (m : TaskManager) (ts : List Task) : TaskManager :=
  ts.foldl add_task m

/-- The graph operations available to callers, for reasoning about arbitrary
operation sequences.  `addTask` carries the constructor arguments used at
every task creation site (status and result take their dataclass defaults);
`skip` and `retry` are the route bodies; `retry` leaves the state unchanged
because the source raises `AttributeError` before any mutation. -/
inductive Op where
  | addTask (task_id agent descr : String) (deps : List String) (phase : String)
  | getReadyTasks
  | markInProgress (id : String)
  | markCompleted (id : String) (result : Option TaskResult)
  | markFailed (id : String) (e : FailureMsg)
  | skip (id : String)
  | retry (id : String)
  | clearOp

/-- State effect of one graph operation. -/
def applyOp (m : TaskManager) : Op → TaskManager
  | Op.addTask i a d deps ph => add_task m (mkTask i a d deps ph)
  | Op.getReadyTasks => (get_ready_tasks m).2
  | Op.markInProgress id => (mark_in_progress m id).1
  | Op.markCompleted id r => (mark_completed m id r).1
  | Op.markFailed id e => (mark_failed m id e).1
  | Op.skip id => (skip_task m id).1
  | Op.retry id => (retry_task m id).1
  | Op.clearOp => clear m

/-- Run a sequence of graph operations from the empty graph. -/
def runOps (ops : List Op) : TaskManager :=
  ops.foldl applyOp TaskManager.empty

/-- The claimed cache coherence between the id sets and the status field: an
id is in `completed_tasks` iff its task's status is `COMPLETED`, and in
`failed_tasks` iff its status is `FAILED`. -/
def setsConsistent (m : TaskManager) : Bool :=
  m.tasks.all (fun t =>
    (m.completed_tasks.contains t.task_id == (t.status == TaskStatus.completed)) &&
    (m.failed_tasks.contains t.task_id == (t.status == TaskStatus.failed)))

/-- Ids in the `tasks` dict are pairwise distinct (true of every state the
dict operations can build, since `add_task` replaces in place). -/
def uniqueIds (m : TaskManager) : Prop :=
  (m.tasks.map Task.task_id).Nodup

/-- Spec-side reformulation of the phase gate, used to state the amended
scheduling rule: the group, for the first phase in `PHASE_ORDER` that some
task of `l` carries, of the tasks of `l` in that phase; all of `l` when no
task carries a recognized phase. -/
def nextPhaseSpec (l : List Task) : List Task :=
  match PHASE_ORDER.find? (fun p => l.any (fun t => t.phase == p)) with
  | some p => l.filter (fun t => t.phase == p)
  | none => l

/-- State of a `ToolCallTracker` from `loop_detection.py`.  A call signature
is the pair of the tool name and the normalized parameter string
`str(sorted(parameters.items()))`; `call_counts` is the defaultdict of
per-signature counts. -/
structure ToolCallTracker where
  max_total_calls : Nat
  max_identical_calls : Nat
  max_recent_repeats : Nat
  call_history : List (String × String)
  call_counts : List ((String × String) × Nat)
  loop_detected : Bool
  loop_reason : String
deriving DecidableEq, Repr

/-- `ToolCallTracker(max_total_calls, max_identical_calls,
max_recent_repeats)` with empty history. -/
def mkTracker (max_total max_identical max_recent : Nat) : ToolCallTracker :=
  { max_total_calls := max_total, max_identical_calls := max_identical,
    max_recent_repeats := max_recent, call_history := [], call_counts := [],
    loop_detected := false, loop_reason := "" }

/-- Defaultdict lookup: 0 for a signature never seen. -/
def getCount (cs : List ((String × String) × Nat)) (sig : String × String) : Nat :=
  match cs.find? (fun c => c.1 == sig) with
  | some c => c.2
  | none => 0

/-- `self.call_counts[call_signature] += 1` on the defaultdict. -/
def bumpCount (cs : List ((String × String) × Nat)) (sig : String × String) :
    List ((String × String) × Nat) :=
  match cs.find? (fun c => c.1 == sig) with
  | some _ => cs.map (fun c => if c.1 == sig then (c.1, c.2 + 1) else c)
  | none => cs ++ [(sig, 1)]

/-- Python's `lst[-n:]`: the whole list when `n = 0` (since `-0 == 0`), the
last `n` elements otherwise. -/
def pySliceLast (l : List α) (n : Nat) : List α :=
  if n = 0 then l else l.drop (l.length - n)

/-- `ToolCallTracker.track_call`.  Appends the signature, bumps its count,
then runs the three checks in source order: total ceiling, identical-call
ceiling, and the two-identical-halves window over the most recent
`2 * max_recent_repeats` signatures.  Returns the updated tracker and the
continue flag (`False` when a loop is detected).  The diagnostic reason
strings render the source f-strings (the list of tool names in the pattern
reason is rendered with Lean's list `toString`). -/
def track_call (tr : ToolCallTracker) (tool_name : String) (param_str : String) :
    ToolCallTracker × Bool :=
  let sig : String × String := (tool_name, param_str)
  let history := tr.call_history ++ [sig]
  let counts := bumpCount tr.call_counts sig
  let total := history.length
  let tr1 := { tr with call_history := history, call_counts := counts }
  if tr.max_total_calls < total then
    ({ tr1 with
        loop_detected := true,
        loop_reason := "Exceeded maximum tool calls (" ++ toString tr.max_total_calls ++ ")" },
     false)
  else if tr.max_identical_calls < getCount counts sig then
    ({ tr1 with
        loop_detected := true,
        loop_reason := "Tool " ++ tool_name ++ " called " ++ toString (getCount counts sig) ++
          " times with same parameters (max: " ++ toString tr.max_identical_calls ++ ")" },
     false)
  else if 2 * tr.max_recent_repeats ≤ total then
    let recent := pySliceLast history (2 * tr.max_recent_repeats)
    let first_half := recent.take tr.max_recent_repeats
    let second_half := recent.drop tr.max_recent_repeats
    if first_half == second_half then
      ({ tr1 with
          loop_detected := true,
          loop_reason := "Detected repeating pattern: " ++
            toString (first_half.map Prod.fst) }, false)
    else (tr1, true)
  else (tr1, true)

/-- Track a list of signatures in order, collecting each call's continue
flag. -/
def runCalls (tr : ToolCallTracker) : List (String × String) → ToolCallTracker × List Bool
  | [] => (tr, [])
  | s :: rest =>
      let r := track_call tr s.1 s.2
      let f := runCalls r.1 rest
      (f.1, r.2 :: f.2)

/-- Behaviour of a worker servicing one task, abstracted at the await point
of `execute_task`: a successful result payload, a deadline expiry, or a
raised application error. -/
inductive WorkerOutcome where
  | ok (payload : String)
  | timeout
  | appError (message : String)

/-- The dict returned by `execute_task`, plus a flag recording whether the
agent invocation was reached (the capability-not-found branch returns before
any dispatch). -/
structure ExecResult where
  status : String
  failure : Option FailureMsg
  dispatched : Bool
deriving Repr

/-- `GeneralContractorAgent.execute_task`.  When the task's agent name has no
entry in the agent registry, the task is immediately marked failed with the
agent-not-found message and nothing is dispatched.  Otherwise the task is
marked in progress and the worker outcome is classified: timeout and raised
errors mark the task failed with the corresponding message, success marks it
completed with the `task_result` dict.  Materials/permitting handling and
activity logging are fire-and-forget and never touch the task manager, so
they are omitted. -/
def execute_task (agents : List String) (worker : Task → WorkerOutcome)
    (timeout_seconds : Nat) (m : TaskManager) (t : Task) : TaskManager × ExecResult :=
  if agents.contains t.agent = false then
    ((mark_failed m t.task_id (FailureMsg.agentNotFound t.agent)).1,
     { status := "error", failure := some (FailureMsg.agentNotFound t.agent),
       dispatched := false })
  else
    let m1 := (mark_in_progress m t.task_id).1
    match worker t with
    | WorkerOutcome.timeout =>
        ((mark_failed m1 t.task_id (FailureMsg.taskTimeout t.task_id timeout_seconds t.agent)).1,
         { status := "failed",
           failure := some (FailureMsg.taskTimeout t.task_id timeout_seconds t.agent),
           dispatched := true })
    | WorkerOutcome.ok payload =>
        ((mark_completed m1 t.task_id
            (some (TaskResult.completedResult t.task_id t.agent payload))).1,
         { status := "completed", failure := none, dispatched := true })
    | WorkerOutcome.appError msg =>
        ((mark_failed m1 t.task_id (FailureMsg.execError t.task_id msg)).1,
         { status := "error", failure := some (FailureMsg.execError t.task_id msg),
           dispatched := true })

/-- Outcome of one `execute_next_phase` call (the `status` key of the
returned dict together with its payload). -/
inductive PhaseOutcome where
  | errorNoProject
  | projectCompleted (ps : ProjectStatus)
  | waiting (ps : ProjectStatus)
  | executed (results : List ExecResult) (ps : ProjectStatus)

/-- `GeneralContractorAgent.execute_next_phase`: errors when idle; otherwise
asks the scheduler for the next phase group.  When the group is empty the
project is declared completed (phase set to `"completed"`) if nothing is
pending or in progress, else the call reports `waiting`; when non-empty each
task of the group is executed sequentially. -/
def execute_next_phase (agents : List String) (worker : Task → WorkerOutcome)
    (timeout_seconds : Nat) (phase : String) (m : TaskManager) :
    String × TaskManager × PhaseOutcome :=
  if phase = "idle" then (phase, m, PhaseOutcome.errorNoProject)
  else
    let pr := get_next_phase_tasks m
    if pr.1.isEmpty then
      let ps := get_project_status pr.2
      if ps.pending = 0 ∧ ps.in_progress = 0 then
        ("completed", pr.2, PhaseOutcome.projectCompleted ps)
      else (phase, pr.2, PhaseOutcome.waiting ps)
    else
      let step := pr.1.foldl
        (fun acc t =>
          let r := execute_task agents worker timeout_seconds acc.1 t
          (r.1, acc.2 ++ [r.2]))
        (pr.2, ([] : List ExecResult))
      (phase, step.1, PhaseOutcome.executed step.2 (get_project_status step.1))

/-- The structured stuck-state dict stored in `self.last_error` when the run
loop detects a dependency deadlock. -/
structure StuckReport where
  error_type : String
  title : String
  message : String
  blocked_tasks : List String
  suggestions : List String
deriving DecidableEq, Repr

/-- The dict literal built in `execute_entire_project` when no task is in
progress but tasks remain pending: each blocked entry is
`f"{task.description} (assigned to {task.agent})"` for every task with
status `PENDING`, plus three fixed suggestion strings. -/
def stuck_report (m : TaskManager) : StuckReport :=
  { error_type := "stuck_state",
    title := "Project Execution Stuck",
    message := "The project cannot proceed because tasks are waiting for dependencies that will never complete.",
    blocked_tasks := ((m.tasks.filter (fun t => t.status == TaskStatus.pending)).map
      (fun t => t.description ++ " (assigned to " ++ t.agent ++ ")")),
    suggestions :=
      ["Some tasks may be missing required information",
       "Check if all assigned agents are properly configured",
       "Consider resetting the project with more complete details"] }

/-- The contractor state threaded through the run loop: the project phase
string, the task manager and the `last_error` slot. -/
structure LoopState where
  phase : String
  tm : TaskManager
  last_error : Option StuckReport

/-- The `while iteration < max_iterations` loop body of
`execute_entire_project`, with the remaining iteration budget as fuel.
Success with phase `"completed"` breaks; an error result breaks; a waiting
result with nothing in progress either records the stuck report and breaks
(pending tasks remain) or just breaks (nothing pending); otherwise the loop
continues.  Returns the final state and the iteration count. -/
def run_loop_aux (agents : List String) (worker : Task → WorkerOutcome)
    (timeout_seconds : Nat) : Nat → LoopState → Nat → LoopState × Nat
  | 0, st, iteration => (st, iteration)
  | Nat.succ fuel, st, iteration =>
      let step := execute_next_phase agents worker timeout_seconds st.phase st.tm
      let st' : LoopState := { phase := step.1, tm := step.2.1, last_error := st.last_error }
      match step.2.2 with
      | PhaseOutcome.errorNoProject => (st', iteration + 1)
      | PhaseOutcome.projectCompleted _ =>
          if st'.phase = "completed" then (st', iteration + 1)
          else run_loop_aux agents worker timeout_seconds fuel st' (iteration + 1)
      | PhaseOutcome.executed _ _ =>
          if st'.phase = "completed" then (st', iteration + 1)
          else run_loop_aux agents worker timeout_seconds fuel st' (iteration + 1)
      | PhaseOutcome.waiting ps =>
          if ps.in_progress = 0 ∧ 0 < ps.pending then
            ({ st' with last_error := some (stuck_report st'.tm) }, iteration + 1)
          else if ps.in_progress = 0 ∧ ps.pending = 0 then (st', iteration + 1)
          else run_loop_aux agents worker timeout_seconds fuel st' (iteration + 1)

/-- The final dict returned by `execute_entire_project`. -/
inductive FinalReport where
  | noProject
  | report (status : String) (final_status : ProjectStatus) (total_iterations : Nat)
      (error_details : Option StuckReport)

/-- `GeneralContractorAgent.execute_entire_project`: errors when idle, else
sets the phase to `"in_progress"`, drives the loop for at most 50 iterations
and reports `"completed"` or `"partial"` together with the final counters,
the iteration count and the stuck-state details when one was recorded. -/
def execute_entire_project (agents : List String) (worker : Task → WorkerOutcome)
    (timeout_seconds : Nat) (st : LoopState) : LoopState × FinalReport :=
  if st.phase = "idle" then (st, FinalReport.noProject)
  else
    let st1 : LoopState := { st with phase := "in_progress" }
    let fin := run_loop_aux agents worker timeout_seconds 50 st1 0
    (fin.1,
     FinalReport.report (if fin.1.phase = "completed" then "completed" else "partial")
       (get_project_status fin.1.tm) fin.2 fin.1.last_error)

/-- The forward half of the cache-coherence invariant: a task with status
`COMPLETED` has its id in `completed_tasks`, and likewise for `FAILED`. -/
def forwardConsistent (m : TaskManager) : Prop :=
  ∀ t, t ∈ m.tasks →
    (t.status = TaskStatus.completed → t.task_id ∈ m.completed_tasks) ∧
    (t.status = TaskStatus.failed → t.task_id ∈ m.failed_tasks)

/-- Operation sequence that completes a task and then fails it. -/
def c2ops : List Op :=
  [Op.addTask "A" "Carpenter" "Build walls" [] "framing",
   Op.markCompleted "A" none,
   Op.markFailed "A" (FailureMsg.execError "A" "hammer broke")]

/-- The task produced by running `c2ops`: completed first, then failed. -/
def c2FailedTask : Task :=
  { mkTask "A" "Carpenter" "Build walls" [] "framing" with
      status := TaskStatus.failed,
      result := some (TaskResult.failureResult (FailureMsg.execError "A" "hammer broke")) }

/-- A mutually-dependent two-task plan. -/
def cyclicPlan : List Task :=
  [mkTask "A" "Carpenter" "Frame the walls" ["B"] "framing",
   mkTask "B" "Mason" "Pour the foundation" ["A"] "foundation"]

/-- A manager whose only task was already promoted to `READY` by a previous
`get_ready_tasks` call. -/
def readyOnlyManager : TaskManager :=
  (get_ready_tasks (add_task TaskManager.empty
    (mkTask "A" "Carpenter" "Frame walls" [] "framing"))).2

/-- A manager whose only task is stuck `FAILED`. -/
def failedTaskManager : TaskManager :=
  (mark_failed (add_task TaskManager.empty
    (mkTask "T" "Carpenter" "Frame the shed" [] "framing"))
    "T" (FailureMsg.execError "T" "simulated failure")).1

/-- The agent registry keys assembled in `GeneralContractorAgent.__init__`. -/
def demoAgents : List String :=
  ["Architect", "Carpenter", "Electrician", "Plumber", "Mason", "Painter",
   "HVAC", "Roofer"]

/-- A worker oracle that always succeeds. -/
def idleWorker : Task → WorkerOutcome := fun _ => WorkerOutcome.ok "done"

/-- The normalized signature of `callTool` with empty parameters. -/
def guardSig : String × String := ("callTool", "[]")

/-- Tracker state after the calls A, B, A with pattern window 2. -/
def abTracker : ToolCallTracker :=
  (runCalls (mkTracker 20 2 2) [("A", "[]"), ("B", "[]"), ("A", "[]")]).1

/-- One-task state whose single task waits on a dependency id that no task
of the plan carries. -/
def deadlockState : LoopState :=
  { phase := "planning",
    tm := add_task TaskManager.empty (mkTask "T2" "Carpenter" "Build walls" ["T1"] "framing"),
    last_error := none }

/-- One-task manager as produced by adding `t` to a fresh manager. -/
def soloManager (t : Task) : TaskManager :=
  { tasks := [t], completed_tasks := [], failed_tasks := [] }

/-- The one-task manager after its task was promoted to `READY`. -/
def soloReadyManager (t : Task) : TaskManager :=
  { tasks := [setReady t], completed_tasks := [], failed_tasks := [] }

/-- The state of `t` after the capability-not-found failure path. -/
def failedNotFound (t : Task) : Task :=
  { t with
      status := TaskStatus.failed,
      result := some (TaskResult.failureResult (FailureMsg.agentNotFound t.agent)) }

/-- The one-task manager after the capability-not-found failure. -/
def notFoundManager (t : Task) : TaskManager :=
  { tasks := [failedNotFound t], completed_tasks := [], failed_tasks := [t.task_id] }

/-- Manager with one stale `READY` task and one promotable `PENDING` task. -/
def c1WitnessManager : TaskManager :=
  { tasks := [{ mkTask "A" "Carpenter" "Frame walls" [] "framing" with status := TaskStatus.ready },
              mkTask "B" "Mason" "Pour slab" [] "foundation"],
    completed_tasks := [], failed_tasks := [] }

/-!
Helper lemmas about the scheduler and the marking operations.
-/

theorem promotes_iff (m : TaskManager) (t : Task) :
    promotes m t = true ↔
      t.status = TaskStatus.pending ∧ are_dependencies_met m t = true := by
  simp [promotes, Bool.and_eq_true]

theorem mem_ready_iff (m : TaskManager) (u : Task) :
    u ∈ (get_ready_tasks m).1 ↔
      ∃ t0, t0 ∈ m.tasks ∧ t0.status = TaskStatus.pending ∧
        are_dependencies_met m t0 = true ∧ u = setReady t0 := by
  unfold get_ready_tasks
  simp only [List.mem_map, List.mem_filter, promotes_iff]
  constructor
  · rintro ⟨a, ⟨ha, hp, hd⟩, rfl⟩
    exact ⟨a, ha, hp, hd, rfl⟩
  · rintro ⟨a, ha, hp, hd, rfl⟩
    exact ⟨a, ⟨ha, hp, hd⟩, rfl⟩

theorem ready_nil_snd (m : TaskManager) (h : (get_ready_tasks m).1 = []) :
    (get_ready_tasks m).2 = m := by
  unfold get_ready_tasks at h ⊢
  simp only [List.map_eq_nil_iff, List.filter_eq_nil_iff] at h
  have hmap : m.tasks.map (fun t => if promotes m t then setReady t else t) = m.tasks := by
    have hcong := List.map_congr_left (l := m.tasks)
      (f := fun t => if promotes m t then setReady t else t) (g := fun t => t)
      (by intro a ha; simp [Bool.eq_false_iff.2 (h a ha)])
    simpa using hcong
  show ({ m with tasks := m.tasks.map (fun t => if promotes m t then setReady t else t) } : TaskManager) = m
  rw [hmap]

theorem ready_idem (m : TaskManager) :
    (get_ready_tasks (get_ready_tasks m).2).1 = [] := by
  unfold get_ready_tasks
  simp only [List.map_eq_nil_iff, List.filter_eq_nil_iff]
  intro a ha
  simp only [List.mem_map] at ha
  obtain ⟨u, hu, rfl⟩ := ha
  by_cases hp : promotes m u
  · rw [if_pos hp]
    simp [promotes, setReady]
  · rw [if_neg hp]
    exact hp

theorem filter_isEmpty_eq {α : Type} (l : List α) (q : α → Bool) :
    (l.filter q).isEmpty = !(l.any q) := by
  induction l with
  | nil => rfl
  | cons a l ih =>
      by_cases h : q a <;> simp [List.filter_cons, List.any_cons, h, ih]

theorem firstPhaseGroup_eq_find (l : List Task) (ps : List String) :
    firstPhaseGroup l ps =
      Option.map (fun p => l.filter (fun t => t.phase == p))
        (ps.find? (fun p => l.any (fun t => t.phase == p))) := by
  induction ps with
  | nil => rfl
  | cons p ps ih =>
      simp only [firstPhaseGroup, filter_isEmpty_eq]
      cases hq : l.any (fun t => t.phase == p) <;> simp [List.find?, hq, ih]

theorem next_phase_eq (m : TaskManager) :
    (get_next_phase_tasks m).1 =
      (if (get_ready_tasks m).1.isEmpty then []
       else nextPhaseSpec (get_ready_tasks m).1) := by
  simp only [get_next_phase_tasks, nextPhaseSpec, firstPhaseGroup_eq_find]
  by_cases he : (get_ready_tasks m).1.isEmpty
  · simp [he]
  · cases hf : PHASE_ORDER.find?
        (fun p => (get_ready_tasks m).1.any (fun t => t.phase == p)) <;>
      simp [he, hf]

theorem next_phase_snd (m : TaskManager) :
    (get_next_phase_tasks m).2 = (get_ready_tasks m).2 := by
  simp only [get_next_phase_tasks]
  by_cases he : (get_ready_tasks m).1.isEmpty
  · simp [he]
  · cases hf : firstPhaseGroup (get_ready_tasks m).1 PHASE_ORDER <;> simp [he, hf]

theorem next_phase_of_ready_nil (m : TaskManager) (h : (get_ready_tasks m).1 = []) :
    get_next_phase_tasks m = ([], m) := by
  have h2 := ready_nil_snd m h
  simp [get_next_phase_tasks, h, h2]

theorem mem_next_phase (m : TaskManager) (u : Task)
    (h : u ∈ (get_next_phase_tasks m).1) : u ∈ (get_ready_tasks m).1 := by
  rw [next_phase_eq] at h
  by_cases he : (get_ready_tasks m).1.isEmpty
  · rw [if_pos he] at h
    simp at h
  · rw [if_neg he] at h
    unfold nextPhaseSpec at h
    cases hf : PHASE_ORDER.find?
        (fun p => (get_ready_tasks m).1.any (fun t => t.phase == p)) with
    | none => rw [hf] at h; exact h
    | some p =>
        rw [hf] at h
        exact (List.mem_filter.1 h).1

theorem next_phase_single (m : TaskManager) (u : Task)
    (h : (get_ready_tasks m).1 = [u]) : (get_next_phase_tasks m).1 = [u] := by
  rw [next_phase_eq, h]
  simp only [List.isEmpty_cons, if_false, Bool.false_eq_true]
  unfold nextPhaseSpec
  cases hf : PHASE_ORDER.find? (fun p => [u].any (fun t => t.phase == p)) with
  | none => rfl
  | some p =>
      have hp := List.find?_some hf
      simp only [List.any_cons, List.any_nil, Bool.or_false] at hp
      simp [hp]

theorem containsId_add_self (m : TaskManager) (t : Task) :
    containsId (add_task m t) t.task_id = true := by
  unfold add_task
  by_cases h : containsId m t.task_id
  · rw [if_pos h]
    rcases List.any_eq_true.1 h with ⟨u, hu, hup⟩
    refine List.any_eq_true.2 ⟨t, ?_, by simp⟩
    exact List.mem_map.2 ⟨u, hu, by rw [if_pos hup]⟩
  · rw [if_neg h]
    refine List.any_eq_true.2 ⟨t, ?_, by simp⟩
    exact List.mem_append_right _ (by simp)

theorem containsId_add_mono (m : TaskManager) (t : Task) (id : String)
    (h : containsId m id = true) : containsId (add_task m t) id = true := by
  unfold add_task
  rcases List.any_eq_true.1 h with ⟨u, hu, hup⟩
  by_cases hc : containsId m t.task_id
  · rw [if_pos hc]
    by_cases hut : u.task_id == t.task_id
    · refine List.any_eq_true.2 ⟨t, List.mem_map.2 ⟨u, hu, by rw [if_pos hut]⟩, ?_⟩
      rw [show t.task_id = u.task_id from (eq_of_beq hut).symm]
      exact hup
    · exact List.any_eq_true.2 ⟨u, List.mem_map.2 ⟨u, hu, by rw [if_neg hut]⟩, hup⟩
  · rw [if_neg hc]
    exact List.any_eq_true.2 ⟨u, List.mem_append_left _ hu, hup⟩

theorem containsId_ingest_mono (m : TaskManager) (ts : List Task) (id : String)
    (h : containsId m id = true) : containsId (ingestPlan m ts) id = true := by
  induction ts generalizing m with
  | nil => exact h
  | cons a ts ih => exact ih _ (containsId_add_mono m a id h)

theorem retry_fst (m : TaskManager) (id : String) : (retry_task m id).1 = m := by
  unfold retry_task
  cases h : get_task m id with
  | none => rfl
  | some t => by_cases hs : t.status == TaskStatus.failed <;> simp [hs]

theorem mem_setAdd_self (s : List String) (x : String) : x ∈ setAdd s x := by
  unfold setAdd
  by_cases h : s.contains x
  · rw [if_pos h]
    exact List.elem_iff.1 h
  · rw [if_neg h]
    exact List.mem_append_right _ (by simp)

theorem mem_setAdd_of_mem (s : List String) (x y : String) (h : y ∈ s) :
    y ∈ setAdd s x := by
  unfold setAdd
  by_cases hc : s.contains x
  · rw [if_pos hc]; exact h
  · rw [if_neg hc]; exact List.mem_append_left _ h

theorem forward_add_task (m : TaskManager) (t0 : Task)
    (ht0 : t0.status = TaskStatus.pending) (h : forwardConsistent m) :
    forwardConsistent (add_task m t0) := by
  unfold add_task
  by_cases hc : containsId m t0.task_id
  · rw [if_pos hc]
    intro t ht
    obtain ⟨u, hu, rfl⟩ := List.mem_map.1 ht
    by_cases hut : u.task_id == t0.task_id
    · rw [if_pos hut]
      constructor <;> intro hs <;> rw [ht0] at hs <;> cases hs
    · rw [if_neg hut]
      exact h u hu
  · rw [if_neg hc]
    intro t ht
    rcases List.mem_append.1 ht with hl | hr
    · exact h t hl
    · have : t = t0 := by simpa using hr
      subst this
      constructor <;> intro hs <;> rw [ht0] at hs <;> cases hs

theorem forward_get_ready (m : TaskManager) (h : forwardConsistent m) :
    forwardConsistent (get_ready_tasks m).2 := by
  unfold get_ready_tasks
  intro t ht
  obtain ⟨u, hu, rfl⟩ := List.mem_map.1 ht
  by_cases hp : promotes m u
  · rw [if_pos hp]
    constructor <;> intro hs <;> cases hs
  · rw [if_neg hp]
    exact h u hu

theorem forward_mark_in_progress (m : TaskManager) (id : String)
    (h : forwardConsistent m) : forwardConsistent (mark_in_progress m id).1 := by
  unfold mark_in_progress
  by_cases hc : containsId m id
  · rw [if_pos hc]
    intro t ht
    obtain ⟨u, hu, rfl⟩ := List.mem_map.1 ht
    by_cases hut : u.task_id == id
    · rw [if_pos hut]
      constructor <;> intro hs <;> cases hs
    · rw [if_neg hut]
      exact h u hu
  · rw [if_neg hc]
    exact h

theorem forward_mark_completed (m : TaskManager) (id : String) (r : Option TaskResult)
    (h : forwardConsistent m) : forwardConsistent (mark_completed m id r).1 := by
  unfold mark_completed
  by_cases hc : containsId m id
  · rw [if_pos hc]
    intro t ht
    obtain ⟨u, hu, rfl⟩ := List.mem_map.1 ht
    by_cases hut : u.task_id == id
    · rw [if_pos hut]
      refine ⟨fun _ => ?_, fun hs => ?_⟩
      · show u.task_id ∈ setAdd m.completed_tasks id
        rw [eq_of_beq hut]
        exact mem_setAdd_self _ _
      · cases hs
    · rw [if_neg hut]
      refine ⟨fun hs => ?_, fun hs => (h u hu).2 hs⟩
      exact mem_setAdd_of_mem _ _ _ ((h u hu).1 hs)
  · rw [if_neg hc]
    exact h

theorem forward_mark_failed (m : TaskManager) (id : String) (e : FailureMsg)
    (h : forwardConsistent m) : forwardConsistent (mark_failed m id e).1 := by
  unfold mark_failed
  by_cases hc : containsId m id
  · rw [if_pos hc]
    intro t ht
    obtain ⟨u, hu, rfl⟩ := List.mem_map.1 ht
    by_cases hut : u.task_id == id
    · rw [if_pos hut]
      refine ⟨fun hs => ?_, fun _ => ?_⟩
      · cases hs
      · show u.task_id ∈ setAdd m.failed_tasks id
        rw [eq_of_beq hut]
        exact mem_setAdd_self _ _
    · rw [if_neg hut]
      refine ⟨fun hs => (h u hu).1 hs, fun hs => ?_⟩
      exact mem_setAdd_of_mem _ _ _ ((h u hu).2 hs)
  · rw [if_neg hc]
    exact h

theorem forward_skip (m : TaskManager) (id : String) (h : forwardConsistent m) :
    forwardConsistent (skip_task m id).1 := by
  unfold skip_task
  cases hg : get_task m id with
  | none => exact h
  | some t => exact forward_mark_completed m id _ h

theorem forward_applyOp (m : TaskManager) (op : Op) (h : forwardConsistent m) :
    forwardConsistent (applyOp m op) := by
  cases op with
  | addTask i a d deps ph => exact forward_add_task m _ rfl h
  | getReadyTasks => exact forward_get_ready m h
  | markInProgress id => exact forward_mark_in_progress m id h
  | markCompleted id r => exact forward_mark_completed m id r h
  | markFailed id e => exact forward_mark_failed m id e h
  | skip id => exact forward_skip m id h
  | retry id =>
      show forwardConsistent (retry_task m id).1
      rw [retry_fst]
      exact h
  | clearOp =>
      intro t ht
      cases ht

theorem forward_runOps (ops : List Op) : forwardConsistent (runOps ops) := by
  unfold runOps
  have hall : ∀ m, forwardConsistent m → forwardConsistent (ops.foldl applyOp m) := by
    induction ops with
    | nil => intro m hm; exact hm
    | cons op ops ih =>
        intro m hm
        exact ih _ (forward_applyOp m op hm)
  exact hall TaskManager.empty (fun t ht => absurd ht (by simp [TaskManager.empty]))

theorem find?_updateTask (ts : List Task) (id : String) (f : Task → Task)
    (hf : ∀ t, (f t).task_id = t.task_id) :
    (updateTask ts id f).find? (fun t => t.task_id == id) =
      Option.map (fun t => if t.task_id == id then f t else t)
        (ts.find? (fun t => t.task_id == id)) := by
  unfold updateTask
  rw [List.find?_map]
  have hpred : ((fun t => t.task_id == id) ∘ fun t => if t.task_id == id then f t else t) =
      (fun t => t.task_id == id) := by
    funext t
    by_cases h : t.task_id == id
    · simp [Function.comp, h, hf t]
    · simp [Function.comp, h]
  rw [hpred]

theorem get_task_mark_failed (m : TaskManager) (id : String) (e : FailureMsg)
    (h : containsId m id = true) :
    ∃ u, get_task m id = some u ∧
      get_task (mark_failed m id e).1 id =
        some { u with status := TaskStatus.failed,
                      result := some (TaskResult.failureResult e) } ∧
      id ∈ (mark_failed m id e).1.failed_tasks := by
  unfold mark_failed
  rw [if_pos h]
  have hsome : (m.tasks.find? (fun t => t.task_id == id)).isSome := by
    rw [List.find?_isSome]
    exact List.any_eq_true.1 h
  cases hfind : m.tasks.find? (fun t => t.task_id == id) with
  | none => rw [hfind] at hsome; cases hsome
  | some u =>
      have hup := List.find?_some hfind
      refine ⟨u, hfind, ?_, mem_setAdd_self _ _⟩
      show (updateTask m.tasks id (fun t => { t with status := TaskStatus.failed, result := some (TaskResult.failureResult e) })).find? (fun t => t.task_id == id) = _
      rw [find?_updateTask m.tasks id (fun t => { t with status := TaskStatus.failed, result := some (TaskResult.failureResult e) }) (fun t => rfl), hfind]
      simp only [Option.map_some']
      rw [if_pos hup]

theorem run_loop_step_executed (agents : List String) (worker : Task → WorkerOutcome)
    (secs fuel : Nat) (st : LoopState) (it : Nat) (ph' : String) (m' : TaskManager)
    (rs : List ExecResult) (ps : ProjectStatus)
    (hstep : execute_next_phase agents worker secs st.phase st.tm =
      (ph', m', PhaseOutcome.executed rs ps))
    (hph : ph' ≠ "completed") :
    run_loop_aux agents worker secs (fuel + 1) st it =
      run_loop_aux agents worker secs fuel
        { phase := ph', tm := m', last_error := st.last_error } (it + 1) := by
  simp only [run_loop_aux, hstep]
  rw [if_neg hph]

theorem run_loop_step_completed (agents : List String) (worker : Task → WorkerOutcome)
    (secs fuel : Nat) (st : LoopState) (it : Nat) (m' : TaskManager) (ps : ProjectStatus)
    (hstep : execute_next_phase agents worker secs st.phase st.tm =
      ("completed", m', PhaseOutcome.projectCompleted ps)) :
    run_loop_aux agents worker secs (fuel + 1) st it =
      ({ phase := "completed", tm := m', last_error := st.last_error }, it + 1) := by
  simp only [run_loop_aux, hstep]
  simp

theorem run_loop_step_deadlock (agents : List String) (worker : Task → WorkerOutcome)
    (secs fuel : Nat) (st : LoopState) (it : Nat) (ph' : String) (m' : TaskManager)
    (ps : ProjectStatus)
    (hstep : execute_next_phase agents worker secs st.phase st.tm =
      (ph', m', PhaseOutcome.waiting ps))
    (hip : ps.in_progress = 0) (hpend : 0 < ps.pending) :
    run_loop_aux agents worker secs (fuel + 1) st it =
      ({ phase := ph', tm := m', last_error := some (stuck_report m') }, it + 1) := by
  simp only [run_loop_aux, hstep]
  rw [if_pos ⟨hip, hpend⟩]

/-!
Claim theorems.
-/

/-- C10: for every task id absent from the task map, `mark_in_progress`,
`mark_completed` and `mark_failed` all return `False` and leave the manager —
task map, completed set and failed set — exactly unchanged. -/
theorem C10_mark_missing_id_noop (m : TaskManager) (id : String)
    (r : Option TaskResult) (e : FailureMsg) (h : containsId m id = false) :
    mark_in_progress m id = (m, false) ∧
    mark_completed m id r = (m, false) ∧
    mark_failed m id e = (m, false) := by
  unfold mark_in_progress mark_completed mark_failed
  simp [h]

/-- Witness for C10 at the empty manager and the id `"missing"`. -/
theorem C10_mark_missing_id_noop_witness :
    containsId TaskManager.empty "missing" = false ∧
    (mark_in_progress TaskManager.empty "missing" = (TaskManager.empty, false) ∧
     mark_completed TaskManager.empty "missing" none = (TaskManager.empty, false) ∧
     mark_failed TaskManager.empty "missing"
       (FailureMsg.execError "missing" "no such task") = (TaskManager.empty, false)) :=
  ⟨by decide,
   C10_mark_missing_id_noop TaskManager.empty "missing" none
     (FailureMsg.execError "missing" "no such task") (by decide)⟩

/-- C4: evaluating the retry route on a manager whose task `"T"` is `FAILED`
shows the code path the claim describes is broken: instead of transitioning
the task back to `READY`, the route hits the nonexistent
`TaskManager.mark_ready` method (an `AttributeError`) and the task stays
`FAILED` with the manager unchanged. -/
theorem C4_retry_raises_attribute_error :
    retry_task failedTaskManager "T" = (failedTaskManager, RetryOutcome.attributeError) ∧
    Option.map Task.status (get_task failedTaskManager "T") = some TaskStatus.failed ∧
    Option.map Task.status (get_task (retry_task failedTaskManager "T").1 "T") =
      some TaskStatus.failed := by
  decide

/-- C3 counterexample: the mutually-dependent plan `{A dep B, B dep A}` is
not rejected — after ingestion both of its tasks are present in the graph,
contradicting "produces no task graph (no task from the plan is present in
the graph afterward)". -/
theorem C3_cycle_not_rejected :
    containsId (ingestPlan TaskManager.empty cyclicPlan) "A" = true ∧
    containsId (ingestPlan TaskManager.empty cyclicPlan) "B" = true := by
  decide

/-- C3 (amended): ingestion performs no cycle detection at all — every task
of any submitted plan, cyclic or not, is present in the graph after
ingestion, and no rejection path exists. -/
theorem C3_ingest_accepts_every_task (m : TaskManager) (ts : List Task) (t : Task)
    (ht : t ∈ ts) : containsId (ingestPlan m ts) t.task_id = true := by
  induction ts generalizing m with
  | nil => cases ht
  | cons a ts ih =>
      rcases List.mem_cons.1 ht with rfl | hmem
      · exact containsId_ingest_mono _ ts _ (containsId_add_self m t)
      · exact ih (add_task m a) hmem

/-- Witness for C3 at the cyclic two-task plan. -/
theorem C3_ingest_accepts_every_task_witness :
    (mkTask "A" "Carpenter" "Frame the walls" ["B"] "framing") ∈ cyclicPlan ∧
    containsId (ingestPlan TaskManager.empty cyclicPlan)
      (mkTask "A" "Carpenter" "Frame the walls" ["B"] "framing").task_id = true :=
  ⟨by decide,
   C3_ingest_accepts_every_task TaskManager.empty cyclicPlan _ (by decide)⟩

/-- C8 counterexample: with the total-calls ceiling at 20 and the other
ceilings at their defaults (identical-call ceiling 2, pattern window 3), a
stream of 21 identical `(callTool, {})` signatures is aborted already on the
3rd call — the guard does not continue through the first 20. -/
theorem C8_aborts_before_21st :
    (runCalls (mkTracker 20 2 3) (List.replicate 21 guardSig)).2.take 3 =
      [true, true, false] := by
  decide

/-- C8 (amended): with `max_total_calls = 20` and defaults elsewhere, 21
identical signatures produce continue signals only for the first 2 calls and
abort signals from the 3rd call on, because the identical-call ceiling
(default 2) fires before the total-calls ceiling ever can; the recorded
reason classifies the identical-call runaway. -/
theorem C8_identical_calls_abort_third :
    (runCalls (mkTracker 20 2 3) (List.replicate 21 guardSig)).2 =
      [true, true] ++ List.replicate 19 false ∧
    (runCalls (mkTracker 20 2 3) (List.replicate 3 guardSig)).1.loop_detected = true ∧
    (runCalls (mkTracker 20 2 3) (List.replicate 3 guardSig)).1.loop_reason =
      "Tool callTool called 3 times with same parameters (max: 2)" := by
  decide

/-- C6: one `get_ready_tasks` call returns a task (promoted to `READY`) iff
it comes from a `PENDING` task of the graph all of whose dependency ids are
in the completed set, and an immediately following call re-emits nothing —
already-`READY` tasks are never returned again. -/
theorem C6_ready_iff_deps_completed : ∀ m : TaskManager,
    (∀ u : Task, u ∈ (get_ready_tasks m).1 ↔
        ∃ t0, t0 ∈ m.tasks ∧ t0.status = TaskStatus.pending ∧
          are_dependencies_met m t0 = true ∧ u = setReady t0) ∧
    (get_ready_tasks (get_ready_tasks m).2).1 = [] :=
  fun m => ⟨fun u => mem_ready_iff m u, ready_idem m⟩

/-- C1 counterexample: a manager whose only task is already `READY` (with
the recognized phase `"framing"`).  The claim demands that this task — Ready
before the call — be grouped and returned as the first non-empty phase
group, but `get_next_phase_tasks` returns the empty list because
`get_ready_tasks` only reports tasks promoted during the call itself. -/
theorem C1_stale_ready_dropped :
    (get_next_phase_tasks readyOnlyManager).1 = [] ∧
    readyOnlyManager.tasks.any
      (fun t => t.status == TaskStatus.ready && t.phase == "framing") = true := by
  decide

/-- C1 (amended): `get_next_phase_tasks` groups only the tasks newly promoted
to `READY` during the call (those that were `PENDING` with all dependency ids
completed) and returns the group of the first phase in the fixed order that
is non-empty among them (all of them when no recognized phase occurs); a task
that was already `READY` before the call is never returned. -/
theorem C1_next_phase_newly_ready_only (m : TaskManager) (hm : uniqueIds m) :
    (get_next_phase_tasks m).1 =
      (if (get_ready_tasks m).1.isEmpty then []
       else nextPhaseSpec (get_ready_tasks m).1) ∧
    (∀ u, u ∈ (get_next_phase_tasks m).1 →
      ∃ t0, t0 ∈ m.tasks ∧ t0.status = TaskStatus.pending ∧
        are_dependencies_met m t0 = true ∧ u = setReady t0) ∧
    (∀ t, t ∈ m.tasks → t.status = TaskStatus.ready →
      ∀ u, u ∈ (get_next_phase_tasks m).1 → u.task_id ≠ t.task_id) := by
  refine ⟨next_phase_eq m, ?_, ?_⟩
  · intro u hu
    exact (mem_ready_iff m u).1 (mem_next_phase m u hu)
  · intro t ht hst u hu hid
    obtain ⟨t0, ht0, hp, _, rfl⟩ := (mem_ready_iff m u).1 (mem_next_phase m u hu)
    have h0 : t0.task_id = t.task_id := hid
    have heq : t0 = t := List.inj_on_of_nodup_map hm ht0 ht h0
    rw [heq, hst] at hp
    cases hp

/-- Witness for C1 at a manager holding one stale `READY` task `"A"` and one
promotable `PENDING` task `"B"`. -/
theorem C1_next_phase_newly_ready_only_witness :
    uniqueIds c1WitnessManager ∧
    ((get_next_phase_tasks c1WitnessManager).1 =
      (if (get_ready_tasks c1WitnessManager).1.isEmpty then []
       else nextPhaseSpec (get_ready_tasks c1WitnessManager).1) ∧
     (setReady (mkTask "B" "Mason" "Pour slab" [] "foundation")).task_id ≠
       ({ mkTask "A" "Carpenter" "Frame walls" [] "framing" with
            status := TaskStatus.ready } : Task).task_id) :=
  ⟨by unfold uniqueIds; decide,
   (C1_next_phase_newly_ready_only c1WitnessManager (by unfold uniqueIds; decide)).1,
   (C1_next_phase_newly_ready_only c1WitnessManager (by unfold uniqueIds; decide)).2.2
     { mkTask "A" "Carpenter" "Frame walls" [] "framing" with status := TaskStatus.ready }
     (by decide) (by decide)
     (setReady (mkTask "B" "Mason" "Pour slab" [] "foundation")) (by decide)⟩

/-- C2 counterexample: the sequence add `"A"`, `mark_completed "A"`,
`mark_failed "A"` ends with the task's status `FAILED` while `"A"` is still
in the completed set, so the biconditional between set membership and status
fails. -/
theorem C2_sets_diverge :
    setsConsistent (runOps c2ops) = false ∧
    (runOps c2ops).completed_tasks = ["A"] ∧
    Option.map Task.status (get_task (runOps c2ops) "A") = some TaskStatus.failed := by
  decide

/-- C2 (amended): over every operation sequence from the empty graph, the
forward inclusions hold — a task with status `COMPLETED` has its id in the
completed set and a task with status `FAILED` has its id in the failed set —
but not the converse, since no operation ever removes an id from either
set. -/
theorem C2_status_sets_forward_only (ops : List Op) (t : Task)
    (ht : t ∈ (runOps ops).tasks) :
    (t.status = TaskStatus.completed → t.task_id ∈ (runOps ops).completed_tasks) ∧
    (t.status = TaskStatus.failed → t.task_id ∈ (runOps ops).failed_tasks) :=
  forward_runOps ops t ht

/-- Witness for C2 at the complete-then-fail sequence. -/
theorem C2_status_sets_forward_only_witness :
    c2FailedTask ∈ (runOps c2ops).tasks ∧ "A" ∈ (runOps c2ops).failed_tasks :=
  ⟨by decide, (C2_status_sets_forward_only c2ops c2FailedTask (by decide)).2 rfl⟩

/-- C9: whenever the tracked history ends, after the incoming call is
appended, with some block `w` of length `max_recent_repeats` repeated twice,
`track_call` returns the abort signal and records a detected loop (whichever
of the three checks fires first). -/
theorem C9_repeating_halves_abort (tr : ToolCallTracker) (tool p : String)
    (pre w : List (String × String))
    (hk : 0 < tr.max_recent_repeats)
    (hw : w.length = tr.max_recent_repeats)
    (hh : tr.call_history ++ [(tool, p)] = pre ++ (w ++ w)) :
    (track_call tr tool p).2 = false ∧
    (track_call tr tool p).1.loop_detected = true := by
  simp only [track_call]
  by_cases h1 : tr.max_total_calls < (tr.call_history ++ [(tool, p)]).length
  · rw [if_pos h1]
    exact ⟨rfl, rfl⟩
  · rw [if_neg h1]
    by_cases h2 : tr.max_identical_calls <
        getCount (bumpCount tr.call_counts (tool, p)) (tool, p)
    · rw [if_pos h2]
      exact ⟨rfl, rfl⟩
    · rw [if_neg h2]
      have hlen2 : (tr.call_history ++ [(tool, p)]).length =
          pre.length + 2 * tr.max_recent_repeats := by
        rw [hh, List.length_append, List.length_append, hw]
        omega
      have h3 : 2 * tr.max_recent_repeats ≤ (tr.call_history ++ [(tool, p)]).length := by
        omega
      rw [if_pos h3]
      have hrec : pySliceLast (tr.call_history ++ [(tool, p)])
          (2 * tr.max_recent_repeats) = w ++ w := by
        unfold pySliceLast
        rw [if_neg (by omega), hh]
        rw [show (pre ++ (w ++ w)).length - 2 * tr.max_recent_repeats = pre.length by
          rw [List.length_append, List.length_append, hw]; omega]
        exact List.drop_left pre (w ++ w)
      rw [hrec, List.take_left' hw, List.drop_left' hw]
      rw [if_pos (by simp)]
      exact ⟨rfl, rfl⟩

/-- C5 counterexample: running the one-task deadlocked plan (task `"T2"`
waiting on the nonexistent dependency `"T1"`) records a stuck-state report
whose blocked list holds only description-plus-agent strings: neither the
blocked task id `"T2"` nor its missing dependency `"T1"` appears in the
report, contradicting "lists the blocked task ids [and] their missing
dependencies". -/
theorem C5_report_lacks_ids_and_deps :
    (execute_entire_project demoAgents idleWorker 300 deadlockState).1.last_error =
      some { error_type := "stuck_state",
             title := "Project Execution Stuck",
             message := "The project cannot proceed because tasks are waiting for dependencies that will never complete.",
             blocked_tasks := ["Build walls (assigned to Carpenter)"],
             suggestions :=
               ["Some tasks may be missing required information",
                "Check if all assigned agents are properly configured",
                "Consider resetting the project with more complete details"] } ∧
    (stuck_report deadlockState.tm).blocked_tasks.contains "T2" = false ∧
    (stuck_report deadlockState.tm).blocked_tasks.contains "T1" = false := by
  decide

/-- C5 (amended): when a scheduling pass yields no ready tasks while tasks
remain `PENDING` and none is in progress, the run loop stops on that
iteration without raising, reports a partial result, and records the
structured stuck-state report — whose blocked entries are the blocked tasks'
descriptions with their assigned agents (not their ids, and without their
missing dependencies), together with fixed suggestions that include
re-creating the project with more complete details. -/
theorem C5_deadlock_reported (agents : List String) (worker : Task → WorkerOutcome)
    (secs : Nat) (ph : String) (m : TaskManager)
    (hph : ph ≠ "idle")
    (hready : (get_ready_tasks m).1 = [])
    (hpend : 0 < (get_project_status m).pending)
    (hip : (get_project_status m).in_progress = 0) :
    (execute_entire_project agents worker secs
        { phase := ph, tm := m, last_error := none }).1.last_error =
      some (stuck_report m) ∧
    (execute_entire_project agents worker secs
        { phase := ph, tm := m, last_error := none }).2 =
      FinalReport.report "partial" (get_project_status m) 1 (some (stuck_report m)) ∧
    (∀ t, t ∈ m.tasks → t.status = TaskStatus.pending →
      (t.description ++ " (assigned to " ++ t.agent ++ ")") ∈
        (stuck_report m).blocked_tasks) := by
  have hnp := next_phase_of_ready_nil m hready
  have hstep : execute_next_phase agents worker secs "in_progress" m =
      ("in_progress", m, PhaseOutcome.waiting (get_project_status m)) := by
    have hcond : ¬((get_project_status m).pending = 0 ∧
        (get_project_status m).in_progress = 0) := by
      intro hco
      omega
    simp [execute_next_phase, hnp, hcond]
  have hloop50 : run_loop_aux agents worker secs 50
      { phase := "in_progress", tm := m, last_error := none } 0 =
      ({ phase := "in_progress", tm := m, last_error := some (stuck_report m) }, 1) :=
    run_loop_step_deadlock agents worker secs 49
      { phase := "in_progress", tm := m, last_error := none } 0
      "in_progress" m (get_project_status m) hstep hip hpend
  have hfin : execute_entire_project agents worker secs
      { phase := ph, tm := m, last_error := none } =
      ({ phase := "in_progress", tm := m, last_error := some (stuck_report m) },
       FinalReport.report "partial" (get_project_status m) 1 (some (stuck_report m))) := by
    simp [execute_entire_project, hph, hloop50]
  refine ⟨by rw [hfin], by rw [hfin], ?_⟩
  intro t ht hst
  unfold stuck_report
  refine List.mem_map.2 ⟨t, List.mem_filter.2 ⟨ht, ?_⟩, rfl⟩
  simp [hst]

/-- Witness for C5 at the one-task deadlocked plan. -/
theorem C5_deadlock_reported_witness :
    (("planning" : String) ≠ "idle" ∧
     (get_ready_tasks deadlockState.tm).1 = [] ∧
     0 < (get_project_status deadlockState.tm).pending ∧
     (get_project_status deadlockState.tm).in_progress = 0) ∧
    (execute_entire_project demoAgents idleWorker 300
        { phase := "planning", tm := deadlockState.tm, last_error := none }).1.last_error =
      some (stuck_report deadlockState.tm) ∧
    ("Build walls (assigned to Carpenter)" : String) ∈
      (stuck_report deadlockState.tm).blocked_tasks :=
  ⟨⟨by decide, by decide, by decide, by decide⟩,
   (C5_deadlock_reported demoAgents idleWorker 300 "planning" deadlockState.tm
      (by decide) (by decide) (by decide) (by decide)).1,
   (C5_deadlock_reported demoAgents idleWorker 300 "planning" deadlockState.tm
      (by decide) (by decide) (by decide) (by decide)).2.2
     (mkTask "T2" "Carpenter" "Build walls" ["T1"] "framing") (by decide) rfl⟩

/-- C7: a task whose agent name has no entry in the registry is immediately
marked `FAILED` with the agent-not-found reason and no dispatch is attempted;
running a one-task plan made of such a task to completion reports
`pending = 0` and `failed = 1`, the stored reason being the agent-not-found
message and not a timeout. -/
theorem C7_capability_not_found (agents : List String) (worker : Task → WorkerOutcome)
    (secs : Nat) (m : TaskManager) (t : Task)
    (hagent : agents.contains t.agent = false) :
    ((execute_task agents worker secs m t).2.dispatched = false ∧
     (execute_task agents worker secs m t).2.failure =
       some (FailureMsg.agentNotFound t.agent) ∧
     (containsId m t.task_id = true →
        Option.map Task.status
            (get_task (execute_task agents worker secs m t).1 t.task_id) =
          some TaskStatus.failed ∧
        t.task_id ∈ (execute_task agents worker secs m t).1.failed_tasks)) ∧
    (t.status = TaskStatus.pending → t.dependencies = [] →
      (execute_entire_project agents worker secs
          { phase := "planning", tm := add_task TaskManager.empty t,
            last_error := none }).2 =
        FinalReport.report "completed"
          { total_tasks := 1, completed := 0, failed := 1,
            in_progress := 0, pending := 0 } 2 none ∧
      Option.map Task.result
          (get_task (execute_entire_project agents worker secs
              { phase := "planning", tm := add_task TaskManager.empty t,
                last_error := none }).1.tm t.task_id) =
        some (some (TaskResult.failureResult (FailureMsg.agentNotFound t.agent))) ∧
      (∀ s a, FailureMsg.agentNotFound t.agent ≠ FailureMsg.taskTimeout t.task_id s a)) := by
  have hexec : execute_task agents worker secs m t =
      ((mark_failed m t.task_id (FailureMsg.agentNotFound t.agent)).1,
       { status := "error", failure := some (FailureMsg.agentNotFound t.agent),
         dispatched := false }) := by
    unfold execute_task
    rw [if_pos hagent]
  constructor
  · refine ⟨by rw [hexec], by rw [hexec], ?_⟩
    intro hcont
    obtain ⟨u, hu, hupd, hmem⟩ :=
      get_task_mark_failed m t.task_id (FailureMsg.agentNotFound t.agent) hcont
    rw [hexec]
    exact ⟨by rw [hupd]; rfl, hmem⟩
  · intro ht hd
    have hm0 : add_task TaskManager.empty t = soloManager t := by
      simp [add_task, containsId, TaskManager.empty, soloManager]
    rw [hm0]
    have hprom : promotes (soloManager t) t = true := by
      simp [promotes, are_dependencies_met, ht, hd]
    have hT : (soloManager t).tasks = [t] := rfl
    have hready1 : get_ready_tasks (soloManager t) =
        ([setReady t], soloReadyManager t) := by
      unfold get_ready_tasks
      rw [hT]
      simp only [List.filter_cons, List.filter_nil, hprom, if_true, List.map_cons,
        List.map_nil]
      rfl
    have hpair : get_next_phase_tasks (soloManager t) =
        ([setReady t], soloReadyManager t) := by
      refine Prod.ext ?_ ?_
      · exact next_phase_single _ _ (by rw [hready1])
      · rw [next_phase_snd, hready1]
    have hexecT : execute_task agents worker secs (soloReadyManager t) (setReady t) =
        (notFoundManager t,
         { status := "error", failure := some (FailureMsg.agentNotFound t.agent),
           dispatched := false }) := by
      unfold execute_task
      rw [if_pos (show agents.contains (setReady t).agent = false from hagent)]
      simp [mark_failed, containsId, updateTask, setAdd, setReady,
        soloReadyManager, notFoundManager, failedNotFound]
    have hstep1 : execute_next_phase agents worker secs "in_progress" (soloManager t) =
        ("in_progress", notFoundManager t,
         PhaseOutcome.executed
           [{ status := "error", failure := some (FailureMsg.agentNotFound t.agent),
              dispatched := false }]
           (get_project_status (notFoundManager t))) := by
      simp [execute_next_phase, hpair, hexecT]
    have hready2 : (get_ready_tasks (notFoundManager t)).1 = [] := by
      simp [get_ready_tasks, promotes, notFoundManager, failedNotFound]
    have hps : get_project_status (notFoundManager t) =
        { total_tasks := 1, completed := 0, failed := 1,
          in_progress := 0, pending := 0 } := by
      simp [get_project_status, notFoundManager, failedNotFound]
    have hstep2 : execute_next_phase agents worker secs "in_progress" (notFoundManager t) =
        ("completed", notFoundManager t,
         PhaseOutcome.projectCompleted
           { total_tasks := 1, completed := 0, failed := 1,
             in_progress := 0, pending := 0 }) := by
      have hnpz := next_phase_of_ready_nil _ hready2
      simp [execute_next_phase, hnpz, hps]
    have h1 : run_loop_aux agents worker secs 50
        { phase := "in_progress", tm := soloManager t, last_error := none } 0 =
        run_loop_aux agents worker secs 49
          { phase := "in_progress", tm := notFoundManager t, last_error := none } 1 :=
      run_loop_step_executed agents worker secs 49 _ 0 "in_progress" _ _ _ hstep1 (by decide)
    have h2 : run_loop_aux agents worker secs 49
        { phase := "in_progress", tm := notFoundManager t, last_error := none } 1 =
        ({ phase := "completed", tm := notFoundManager t, last_error := none }, 2) :=
      run_loop_step_completed agents worker secs 48 _ 1 _ _ hstep2
    have hfin : execute_entire_project agents worker secs
        { phase := "planning", tm := soloManager t, last_error := none } =
        ({ phase := "completed", tm := notFoundManager t, last_error := none },
         FinalReport.report "completed"
           { total_tasks := 1, completed := 0, failed := 1,
             in_progress := 0, pending := 0 } 2 none) := by
      have hloop50 := h1.trans h2
      simp [execute_entire_project, hloop50, hps]
    refine ⟨by rw [hfin], ?_, ?_⟩
    · rw [hfin]
      simp [get_task, notFoundManager, failedNotFound]
    · intro s a hcontra
      cases hcontra

/-- Witness for C7 at the agent registry of the source and a one-task plan
whose capability `"Surveyor"` has no registered agent. -/
theorem C7_capability_not_found_witness :
    demoAgents.contains "Surveyor" = false ∧
    (execute_task demoAgents idleWorker 300
        (add_task TaskManager.empty (mkTask "T1" "Surveyor" "Survey site" [] "planning"))
        (mkTask "T1" "Surveyor" "Survey site" [] "planning")).2.dispatched = false ∧
    (execute_entire_project demoAgents idleWorker 300
        { phase := "planning",
          tm := add_task TaskManager.empty (mkTask "T1" "Surveyor" "Survey site" [] "planning"),
          last_error := none }).2 =
      FinalReport.report "completed"
        { total_tasks := 1, completed := 0, failed := 1,
          in_progress := 0, pending := 0 } 2 none :=
  ⟨by decide,
   (C7_capability_not_found demoAgents idleWorker 300
      (add_task TaskManager.empty (mkTask "T1" "Surveyor" "Survey site" [] "planning"))
      (mkTask "T1" "Surveyor" "Survey site" [] "planning") (by decide)).1.1,
   ((C7_capability_not_found demoAgents idleWorker 300
      (add_task TaskManager.empty (mkTask "T1" "Surveyor" "Survey site" [] "planning"))
      (mkTask "T1" "Surveyor" "Survey site" [] "planning") (by decide)).2 rfl rfl).1⟩

/-- Witness for C9: with pattern window 2, after the calls A, B, A the
fourth call B completes the repeated block `[A, B]` and is aborted. -/
theorem C9_repeating_halves_abort_witness :
    (0 < abTracker.max_recent_repeats ∧
     ([("A", "[]"), ("B", "[]")] : List (String × String)).length =
       abTracker.max_recent_repeats ∧
     abTracker.call_history ++ [("B", "[]")] =
       [] ++ ([("A", "[]"), ("B", "[]")] ++ [("A", "[]"), ("B", "[]")])) ∧
    (track_call abTracker "B" "[]").2 = false ∧
    (track_call abTracker "B" "[]").1.loop_detected = true :=
  ⟨⟨by decide, by decide, by decide⟩,
   C9_repeating_halves_abort abTracker "B" "[]" [] [("A", "[]"), ("B", "[]")]
     (by decide) (by decide) (by decide)⟩

end GCDemo
